import Mathlib

/-!
Verification development for the openact stdio-RPC test harness
(`test_stdio_rpc_e2e.py`, `test_stdio_rpc.py`, `scripts/callback_server.py`,
`authflow/scripts/callback_server.py`).

The harness drives an external service over line-delimited JSON-RPC.  We give a
shallow embedding of the decoded JSON layer (each response line is either a
decoded JSON value or `none` when `json.loads` failed and `send_rpc_request`
returned `None`), of the Python truthiness / `in` / indexing / `.get` idioms
the scripts use, and of the orchestrating workflow in
`test_stdio_rpc_e2e.py::main` as a pure function from the sequence of decoded
response lines to the trace of requests sent and the final outcome
(`Except`: `.error` models a raised Python exception aborting the workflow).
-/

/-- JSON values, as produced by `json.loads`.  Object fields are kept as an
ordered list of pairs, matching the textual member order of the wire line
(Python dicts preserve insertion order).  Numbers are restricted to integers:
every numeric field in the harness's protocol (`id`, `code`, `limit`,
`offset`) is an integer. -/
inductive Json where
  | null
  | bool (b : Bool)
  | num (n : Int)
  | str (s : String)
  | arr (elems : List Json)
  | obj (fields : List (String × Json))

/-- Python truthiness of a decoded JSON value (`bool(x)`): `None`, `False`,
`0`, `""`, `[]`, `{}` are falsy, everything else truthy. -/
def Json.truthy : Json → Bool
  | .null => false
  | .bool b => b
  | .num n => n != 0
  | .str s => s != ""
  | .arr elems => !elems.isEmpty
  | .obj fields => !fields.isEmpty

/-- Truthiness of an optional decoded response (`None` is falsy). -/
def truthyO : Option Json → Bool
  | none => false
  | some j => j.truthy

/-- Does the character list `l` start with `needle`? -/
def charsStartWith : List Char → List Char → Bool
  | [], _ => true
  | _ :: _, [] => false
  | a :: as, b :: bs => a == b && charsStartWith as bs

/-- Does the character list contain `needle` as a contiguous run? -/
def charsContain (needle : List Char) : List Char → Bool
  | [] => needle.isEmpty
  | b :: bs => charsStartWith needle (b :: bs) || charsContain needle bs

/-- Python substring test `needle in hay` for strings. -/
def strContains (hay needle : String) : Bool :=
  charsContain needle.toList hay.toList

/-- Python `elem == s` where `s` is a `str`: equality with a non-`str` value is
`False`, between strings it is string equality. -/
def jsonIsStrEq (j : Json) (s : String) : Bool :=
  match j with
  | .str t => t == s
  | _ => false

/-- First binding of key `k` in an ordered field list (dict lookup). -/
def keyLookup (fields : List (String × Json)) (k : String) : Option Json :=
  (fields.find? (fun p => p.1 == k)).map Prod.snd

/-- Python membership `k in j` for a string `k`: key membership on a dict,
element equality on a list, substring on a string; `TypeError` otherwise. -/
def pyIn (k : String) (j : Json) : Except String Bool :=
  match j with
  | .obj fields => .ok (fields.any (fun p => p.1 == k))
  | .arr elems => .ok (elems.any (fun x => jsonIsStrEq x k))
  | .str s => .ok (strContains s k)
  | _ => .error "TypeError: argument is not iterable"

/-- Python subscription `j[k]` with a string key: dict lookup (`KeyError`
when absent), `TypeError` on any non-dict value. -/
def pyIndex (j : Json) (k : String) : Except String Json :=
  match j with
  | .obj fields =>
    match keyLookup fields k with
    | some v => .ok v
    | none => .error "KeyError"
  | _ => .error "TypeError: value is not subscriptable with a string"

/-- Python `j.get(k, d)`: defaulting dict lookup; `AttributeError` when `j`
is not a dict. -/
def pyGetD (j : Json) (k : String) (d : Json) : Except String Json :=
  match j with
  | .obj fields => .ok ((keyLookup fields k).getD d)
  | _ => .error "AttributeError: value has no attribute get"

/-- Python iteration `for c in j`: list elements, dict keys, string
characters; `TypeError` otherwise. -/
def pyIter (j : Json) : Except String (List Json) :=
  match j with
  | .arr elems => .ok elems
  | .obj fields => .ok (fields.map (fun p => Json.str p.1))
  | .str s => .ok (s.toList.map (fun c => Json.str (String.mk [c])))
  | _ => .error "TypeError: value is not iterable"

/-! ## The request/response exchange (`send_rpc_request`)

`send_rpc_request` (test_stdio_rpc_e2e.py lines 14-26) builds the request dict
`{"jsonrpc": "2.0", "method": method, "id": request_id}`, adds `"params"` when
given, writes it as one line, then reads one line back and returns
`json.loads` of it — or `None` when parsing fails (the exception is caught and
swallowed after printing).  It performs no check at all on the response, in
particular none on its `id` field.  We model the decoded response line as an
`Option Json` supplied by an oracle list, and each exchange as consuming one
entry of that list. -/

/-- A request as sent on the wire: `send_rpc_request` builds the dict in this
exact member order and with these exact fields (test_stdio_rpc_e2e.py
lines 15-17). -/
structure Request where
  method : String
  id : Int
  params : Option (List (String × Json))

/-- The JSON object `send_rpc_request` serializes for a `Request`
(`{"jsonrpc": "2.0", "method": m, "id": i}` plus `"params"` when present,
in insertion order, test_stdio_rpc_e2e.py lines 15-17). -/
def encodeRequest (r : Request) : Json :=
  Json.obj
    ([("jsonrpc", Json.str "2.0"), ("method", Json.str r.method), ("id", Json.num r.id)]
      ++ (match r.params with
          | some p => [("params", Json.obj p)]
          | none => []))

/-- Modelled from the spec: decoding a Request from a wire JSON object.  The
harness never decodes requests (the service consuming them is the external
collaborator), so this follows spec §3/§6: a JSON object with `jsonrpc`
exactly `"2.0"`, a string `method`, an integer `id`, and an optional `params`
object. -/
def decodeRequest (x : Json) : Option Request :=
  match x with
  | .obj fields =>
    match keyLookup fields "jsonrpc", keyLookup fields "method", keyLookup fields "id" with
    | some (.str v), some (.str m), some (.num i) =>
      if v = "2.0" then
        match keyLookup fields "params" with
        | none => some ⟨m, i, none⟩
        | some (.obj p) => some ⟨m, i, some p⟩
        | some _ => none
      else none
    | _, _, _ => none
  | _ => none

/-- `send_rpc_request` is always called with the default `request_id=1` by
both test scripts. -/
def defaultRequestId : Int := 1

/-- One request as recorded in the trace of sent RPC calls: the method and
the `params` argument passed to `send_rpc_request`. -/
structure Step where
  method : String
  params : Option Json

/-- Reading the next decoded response line from the oracle.  An exhausted
oracle stands for EOF: `readline` returns `""`, `json.loads("")` fails, and
`send_rpc_request` returns `None`. -/
def popResp : List (Option Json) → Option Json × List (Option Json)
  | [] => (none, [])
  | x :: xs => (x, xs)

/-! ## The orchestrated workflow (`test_stdio_rpc_e2e.py::main`)

Each assertion idiom of `main` is embedded as an `Except String` computation:
`.ok` carries the value of the Python expression, `.error` a raised exception
(`AssertionError` from a failed `assert`, or a `TypeError`/`KeyError`/
`AttributeError` from evaluating the expression itself).  Any `.error` aborts
the workflow, exactly as an exception aborts `main`'s `try` block. -/

/-- The success test `r and "result" in r` used by steps 1, 4, 5, 6
(e.g. line 65): falsy responses short-circuit to `False`, then `"result" in r`
is evaluated (which may raise `TypeError`). -/
def checkResult : Option Json → Except String Bool
  | none => .ok false
  | some j => if j.truthy then pyIn "result" j else .ok false

/-- `r["result"][k]` (lines 85, 109, 140): subscribe the response by
`"result"`, then by `k`; `None` is not subscriptable. -/
def indexResult (r : Option Json) (k : String) : Except String Json :=
  match r with
  | none => .error "TypeError: NoneType is not subscriptable"
  | some j =>
    match pyIndex j "result" with
    | .error e => .error e
    | .ok res => pyIndex res k

/-- `rl["result"]` (line 114). -/
def resultOf (r : Option Json) : Except String Json :=
  match r with
  | none => .error "TypeError: NoneType is not subscriptable"
  | some j => pyIndex j "result"

/-- `(r or {}).get("error", {}).get("message", "")` (line 88): the error
message extracted from a failed `action.register` response. -/
def extractErrMsg (r : Option Json) : Except String Json :=
  let base := match r with
    | some j => if j.truthy then j else Json.obj []
    | none => Json.obj []
  match pyGetD base "error" (Json.obj []) with
  | .error e => .error e
  | .ok errVal => pyGetD errVal "message" (Json.str "")

/-- The conflict test of line 89:
`"UNIQUE constraint failed: actions.trn" in msg or "already exists" in msg or
"Invalid input" in msg`, with Python's left-to-right short-circuit. -/
def msgHasMarker (msg : Json) : Except String Bool :=
  match pyIn "UNIQUE constraint failed: actions.trn" msg with
  | .error e => .error e
  | .ok true => .ok true
  | .ok false =>
    match pyIn "already exists" msg with
    | .error e => .error e
    | .ok true => .ok true
    | .ok false => pyIn "Invalid input" msg

/-- The deterministic handle `f"trn:openact:{tenant}:action/{provider}/{action_name}@v1"`
(lines 73 and 83). -/
def expectedTrn (tenant provider name : String) : String :=
  "trn:openact:" ++ tenant ++ ":action/" ++ provider ++ "/" ++ name ++ "@v1"

/-- Lines 84-92: how `main` obtains `action_trn` from the `action.register`
response — the returned handle on success, the synthesized handle when the
error message carries a known conflict marker, and a raised
`AssertionError` otherwise. -/
def classifyRegister (tenant provider name : String) (r : Option Json) : Except String Json :=
  match checkResult r with
  | .error e => .error e
  | .ok true => indexResult r "action_trn"
  | .ok false =>
    match extractErrMsg r with
    | .error e => .error e
    | .ok msg =>
      match msgHasMarker msg with
      | .error e => .error e
      | .ok true => .ok (Json.str (expectedTrn tenant provider name))
      | .ok false => .error "AssertionError: action.register failed"

/-- Line 99: `assert ru and ("result" in ru or "error" not in ru)` — the
value of the asserted expression's truthiness. -/
def updateAccept (ru : Option Json) : Except String Bool :=
  match ru with
  | none => .ok false
  | some j =>
    if j.truthy then
      match pyIn "result" j with
      | .error e => .error e
      | .ok true => .ok true
      | .ok false =>
        match pyIn "error" j with
        | .error e => .error e
        | .ok hasErr => .ok !hasErr
    else .ok false

/-- Line 116 predicate: `isinstance(c, str) and tenant in c and provider in c`. -/
def connMatches (tenant provider : String) (c : Json) : Bool :=
  match c with
  | .str s => strContains s tenant && strContains s provider
  | _ => false

/-- Lines 112-118: the `auth.list` fallback after a failed `auth.pat` —
assert the listing succeeded, take `rl["result"].get("connections", [])`,
filter for strings containing both the tenant and the provider substring,
assert the filtered list is non-empty, and return its first element. -/
def authFallback (tenant provider : String) (rl : Option Json) : Except String Json :=
  match checkResult rl with
  | .error e => .error e
  | .ok false => .error "AssertionError: auth.list failed"
  | .ok true =>
    match resultOf rl with
    | .error e => .error e
    | .ok res =>
      match pyGetD res "connections" (Json.arr []) with
      | .error e => .error e
      | .ok conns =>
        match pyIter conns with
        | .error e => .error e
        | .ok items =>
          match items.filter (connMatches tenant provider) with
          | [] => .error "AssertionError: no existing auth connection found"
          | c :: _ => .ok c

/-- The triple assertion of lines 146 and 154:
`r and "result" in r and k in r["result"]`. -/
def tripleAssert (r : Option Json) (k : String) : Except String Bool :=
  match r with
  | none => .ok false
  | some j =>
    if j.truthy then
      match pyIn "result" j with
      | .error e => .error e
      | .ok false => .ok false
      | .ok true =>
        match pyIndex j "result" with
        | .error e => .error e
        | .ok res => pyIn k res
    else .ok false

/-! ## Workflow composition

`main`'s straight-line `try` body (lines 60-156) is lambda-lifted into one
function per remaining suffix of the workflow, each taking the identifiers in
scope at that point, the remaining oracle of decoded response lines, and
returning the trace of requests sent from that point on together with the
outcome.  The literals `tenant`/`provider`/`action_yaml`/`action_name` bound
at lines 67-70 become parameters, instantiated in `runWorkflow`. -/

/-- Result of running (a suffix of) the workflow: the requests sent, and
`.ok ()` for normal completion or `.error e` for a raised exception. -/
abbrev RunResult := List Step × Except String Unit

/-- Params of the `auth.pat` call (lines 102-107). -/
def patParams (tenant provider : String) : Json :=
  Json.obj [("tenant", Json.str tenant), ("provider", Json.str provider),
    ("user_id", Json.str "user1"), ("access_token", Json.str "dummy-token-for-test")]

/-- Params of the `action.register` call (lines 77-82). -/
def registerParams (yaml tenant provider name : String) : Json :=
  Json.obj [("config_path", Json.str yaml), ("tenant", Json.str tenant),
    ("provider", Json.str provider), ("name", Json.str name)]

/-- Steps 7-8 (lines 142-154): `execution.get` then `execution.list`. -/
def execGetStep (tenant : String) (execution_trn : Json) (pending : List (Option Json)) :
    RunResult :=
  let (r, p1) := popResp pending
  let gStep : Step := ⟨"execution.get", some (Json.obj [("execution_trn", execution_trn)])⟩
  match tripleAssert r "execution" with
  | .error e => ([gStep], .error e)
  | .ok false => ([gStep], .error "AssertionError: execution.get failed")
  | .ok true =>
    let (rl, _) := popResp p1
    let lStep : Step := ⟨"execution.list",
      some (Json.obj [("tenant", Json.str tenant), ("limit", Json.num 10),
        ("offset", Json.num 0)])⟩
    match tripleAssert rl "executions" with
    | .error e => ([gStep, lStep], .error e)
    | .ok false => ([gStep, lStep], .error "AssertionError: execution.list failed")
    | .ok true => ([gStep, lStep], .ok ())

/-- Step 6 (lines 134-140): `run`, assert success, take
`r["result"]["execution_trn"]`. -/
def runTrigger (tenant : String) (action_trn : Json) (pending : List (Option Json)) :
    RunResult :=
  let (r, p1) := popResp pending
  let rStep : Step := ⟨"run",
    some (Json.obj [("tenant", Json.str tenant), ("action_trn", action_trn)])⟩
  match checkResult r with
  | .error e => ([rStep], .error e)
  | .ok false => ([rStep], .error "AssertionError: run failed")
  | .ok true =>
    match indexResult r "execution_trn" with
    | .error e => ([rStep], .error e)
    | .ok execution_trn =>
      let (tl, out) := execGetStep tenant execution_trn p1
      (rStep :: tl, out)

/-- Step 5 (lines 120-132): `binding.create`; when it is not a success, fall
back to `binding.get` and assert that succeeds. -/
def bindingPhase (tenant : String) (action_trn auth_trn : Json)
    (pending : List (Option Json)) : RunResult :=
  let (r, p1) := popResp pending
  let bStep : Step := ⟨"binding.create",
    some (Json.obj [("tenant", Json.str tenant), ("action_trn", action_trn),
      ("auth_trn", auth_trn)])⟩
  match checkResult r with
  | .error e => ([bStep], .error e)
  | .ok true =>
    let (tl, out) := runTrigger tenant action_trn p1
    (bStep :: tl, out)
  | .ok false =>
    let (rg, p2) := popResp p1
    let gStep : Step := ⟨"binding.get",
      some (Json.obj [("tenant", Json.str tenant), ("action_trn", action_trn)])⟩
    match checkResult rg with
    | .error e => ([bStep, gStep], .error e)
    | .ok false => ([bStep, gStep], .error "AssertionError: binding.get after create failed")
    | .ok true =>
      let (tl, out) := runTrigger tenant action_trn p2
      (bStep :: gStep :: tl, out)

/-- Step 4 (lines 101-118): `auth.pat`; on success take
`r["result"]["connection_trn"]`, otherwise run the `auth.list` fallback. -/
def authPhase (tenant provider : String) (action_trn : Json)
    (pending : List (Option Json)) : RunResult :=
  let (r, p1) := popResp pending
  let pStep : Step := ⟨"auth.pat", some (patParams tenant provider)⟩
  match checkResult r with
  | .error e => ([pStep], .error e)
  | .ok true =>
    match indexResult r "connection_trn" with
    | .error e => ([pStep], .error e)
    | .ok auth_trn =>
      let (tl, out) := bindingPhase tenant action_trn auth_trn p1
      (pStep :: tl, out)
  | .ok false =>
    let (rl, p2) := popResp p1
    let lStep : Step := ⟨"auth.list", none⟩
    match authFallback tenant provider rl with
    | .error e => ([pStep, lStep], .error e)
    | .ok auth_trn =>
      let (tl, out) := bindingPhase tenant action_trn auth_trn p2
      (pStep :: lStep :: tl, out)

/-- Lines 94-99 then onwards: the unconditional `action.update` with its
assertion, followed by the auth phase. -/
def updatePhase (tenant provider yaml : String) (action_trn : Json)
    (pending : List (Option Json)) : RunResult :=
  let (ru, p1) := popResp pending
  let uStep : Step := ⟨"action.update",
    some (Json.obj [("trn", action_trn), ("config_path", Json.str yaml)])⟩
  match updateAccept ru with
  | .error e => ([uStep], .error e)
  | .ok false => ([uStep], .error "AssertionError: action.update failed")
  | .ok true =>
    let (tl, out) := authPhase tenant provider action_trn p1
    (uStep :: tl, out)

/-- The whole `try` body of `main` (lines 60-156): health assertion, the
unconditional `action.delete` whose response is discarded (line 74),
`action.register` with conflict recovery, then the remaining phases. -/
def workflowGo (tenant provider yaml name : String)
    (pending : List (Option Json)) : RunResult :=
  let (h, p1) := popResp pending
  let hStep : Step := ⟨"health", none⟩
  match checkResult h with
  | .error e => ([hStep], .error e)
  | .ok false => ([hStep], .error "AssertionError: health failed")
  | .ok true =>
    let (_, p2) := popResp p1
    let (r, p3) := popResp p2
    let dStep : Step := ⟨"action.delete",
      some (Json.obj [("trn", Json.str (expectedTrn tenant provider name))])⟩
    let regStep : Step := ⟨"action.register", some (registerParams yaml tenant provider name)⟩
    match classifyRegister tenant provider name r with
    | .error e => ([hStep, dStep, regStep], .error e)
    | .ok action_trn =>
      let (tl, out) := updatePhase tenant provider yaml action_trn p3
      (hStep :: dStep :: regStep :: tl, out)

/-- `main`'s workflow with the concrete literals of lines 67-70. -/
def runWorkflow (pending : List (Option Json)) : RunResult :=
  workflowGo "test" "github" "./providers/github/actions/get-user.openapi.yaml" "get-user"
    pending

/-! ## Process supervision (lines 51-58 and 157-162)

`main` spawns the process before the `try` block and tears it down in
`finally`: `terminate()` then `wait(timeout=5)`, and `kill()` when either
raises (in particular when the five-second grace period elapses and `wait`
raises `TimeoutExpired`).  Whether the grace period elapses is environment
nondeterminism, passed in as `graceElapsed`. -/

/-- Externally visible events of one harness run: RPC requests written to the
child, and the teardown calls on the child process. -/
inductive Event where
  | rpc (s : Step)
  | terminate
  | kill

def Event.isTerminate : Event → Bool
  | .terminate => true
  | _ => false

def Event.isKill : Event → Bool
  | .kill => true
  | _ => false

/-- The `finally` block of lines 157-162: `terminate` always runs; `kill`
runs exactly when the graceful wait fails. -/
def stopEvents (graceElapsed : Bool) : List Event :=
  Event.terminate :: (if graceElapsed then [Event.kill] else [])

/-- One complete run of `test_stdio_rpc_e2e.py::main` after the child process
was started: the `try` body followed — on every outcome — by the `finally`
teardown. -/
def harnessRun (pending : List (Option Json)) (graceElapsed : Bool) :
    List Event × Except String Unit :=
  let (trace, out) := runWorkflow pending
  (trace.map Event.rpc ++ stopEvents graceElapsed, out)

/-- The `finally` block of `test_stdio_rpc.py` lines 116-120: when the
process was started (`'process' in locals()`), `terminate()` then an
unbounded `wait()`; nothing otherwise. -/
def rpcTestTeardown (started : Bool) : List Event :=
  if started then [Event.terminate] else []

/-! ## Child process environment (lines 31-38)

`main` builds the child environment as `env = os.environ.copy()` followed by
`env.update({...})` with the three harness-supplied variables.  Environments
are modelled extensionally as lookup functions. -/

/-- The three variables the harness itself supplies (lines 32-38). -/
def allowListKeys : List String :=
  ["OPENACT_DATABASE_URL", "OPENACT_MASTER_KEY", "RUST_LOG"]

/-- `env[k] = v` on an extensional environment. -/
def envUpdate (base : String → Option String) (k v : String) : String → Option String :=
  fun q => if q == k then some v else base q

/-- Lines 31-38: the environment handed to `subprocess.Popen` — the full
ambient environment, updated with the three harness variables. -/
def childEnv (ambient : String → Option String) : String → Option String :=
  envUpdate
    (envUpdate
      (envUpdate ambient "OPENACT_DATABASE_URL"
        "sqlite:/Users/sryu/projects/aionixone/openact/manifest/data/openact.db")
      "OPENACT_MASTER_KEY" "your-32-byte-key-here-for-testing")
    "RUST_LOG" "info"

/-- `test_stdio_rpc.py` lines 44-48: that script passes exactly the three
variables and nothing ambient. -/
def rpcTestEnv : String → Option String :=
  envUpdate
    (envUpdate
      (envUpdate (fun _ => none) "OPENACT_DATABASE_URL" "sqlite:./data/openact.db")
      "OPENACT_MASTER_KEY" "your-32-byte-key-here-for-testing")
    "RUST_LOG" "info"

/-! ## Callback listener ports -/

/-- Value of a run of decimal digits (most significant first), `none` when a
non-digit occurs. -/
def decDigitsVal : List Char → Nat → Option Nat
  | [], acc => some acc
  | c :: cs, acc =>
    if c.isDigit then decDigitsVal cs (acc * 10 + (c.toNat - 48)) else none

/-- Python `int(s)` restricted to plain decimal literals with an optional
leading minus sign (the only shapes that occur for a port value); any other
text raises `ValueError`.  (Python additionally strips whitespace and allows
`+` and digit-group underscores; those shapes never arise here.) -/
def pyInt (s : String) : Except String Int :=
  match s.toList with
  | [] => .error "ValueError: invalid literal for int"
  | '-' :: [] => .error "ValueError: invalid literal for int"
  | '-' :: c :: cs =>
    match decDigitsVal (c :: cs) 0 with
    | some n => .ok (-(n : Int))
    | none => .error "ValueError: invalid literal for int"
  | c :: cs =>
    match decDigitsVal (c :: cs) 0 with
    | some n => .ok (n : Int)
    | none => .error "ValueError: invalid literal for int"

/-- `scripts/callback_server.py` line 72:
`PORT = int(os.environ.get("OPENACT_CALLBACK_PORT", "8080"))`. -/
def scriptsCallbackPort (env : String → Option String) : Except String Int :=
  pyInt ((env "OPENACT_CALLBACK_PORT").getD "8080")

/-- `authflow/scripts/callback_server.py` line 69: `PORT = 8080` — a constant,
independent of the environment. -/
def authflowCallbackPort : Int := 8080

/-! ## Concrete fixtures used by witnesses and counterexamples -/

/-- A well-formed success response whose `id` echoes nothing in particular:
the `id` member is the parameter `i`. -/
def respWithId (i : Int) : Json :=
  Json.obj [("jsonrpc", Json.str "2.0"), ("id", Json.num i),
    ("result", Json.obj [("status", Json.str "ok")])]

/-- A decoded response carrying both a `result` and an `error` member — a
shape spec §3 calls a protocol violation. -/
def bothFieldsResp : Json :=
  Json.obj [("jsonrpc", Json.str "2.0"), ("id", Json.num 1),
    ("result", Json.obj [("status", Json.str "ok")]),
    ("error", Json.obj [("code", Json.num 1), ("message", Json.str "boom")])]

/-- An ambient environment carrying one variable outside the allow-list. -/
def ambientHome : String → Option String :=
  fun q => if q == "HOME" then some "/root" else none

/-- An environment with the callback port variable set to `"9090"`. -/
def envWithPort : String → Option String :=
  fun q => if q == "OPENACT_CALLBACK_PORT" then some "9090" else none

/-- A wire object of a valid Request whose members appear in a non-canonical
order (`method` first).  `json.dumps`/`json.loads` operate on the textual
member sequence, which this field list models. -/
def reorderedWire : Json :=
  Json.obj [("method", Json.str "health"), ("jsonrpc", Json.str "2.0"), ("id", Json.num 1)]

/-- Key of the first member of a JSON object — an observation separating two
object layouts. -/
def headFieldKey : Json → Option String
  | .obj ((k, _) :: _) => some k
  | _ => none

/-- A failed `action.register` response whose error message carries the
`already exists` conflict marker. -/
def conflictResp : Option Json :=
  some (Json.obj [("error", Json.obj [("code", Json.num 1),
    ("message", Json.str "actions.trn already exists")])])

/-- The connections returned by `auth.list` in the C2 witness: a non-string
entry, a string matching neither substring, and one matching both. -/
def connsList : List Json :=
  [Json.num 7, Json.str "trn:openact:other:connection/slack/u",
   Json.str "trn:openact:test:connection/github/user1"]

/-- A failed `auth.pat` response (error, no result). -/
def patFailResp : Option Json :=
  some (Json.obj [("error", Json.obj [("message", Json.str "connection already exists")])])

/-- A successful `auth.list` response carrying `connsList`. -/
def authListResp : Option Json :=
  some (Json.obj [("result", Json.obj [("connections", Json.arr connsList)])])

/-! ## Shared helper lemmas -/

/-- No RPC event satisfies a predicate that is false on all `Event.rpc`. -/
theorem countP_map_rpc (p : Event → Bool) (hp : ∀ s, p (Event.rpc s) = false)
    (l : List Step) : (l.map Event.rpc).countP p = 0 := by
  induction l with
  | nil => simp
  | cons a t ih => simp [List.countP_cons, hp, ih]

/-! ## Claims -/

/-- C10: in every run whose health step succeeded, `main` sends
`action.delete` with the synthesized handle for {tenant, provider, name} as
its second request and `action.register` as its third, whatever the delete
response `d` is (an error response, an undecodable line `none`, anything):
the register request is always issued after a delete was attempted. -/
theorem c10_delete_always_before_register (tenant provider yaml name : String)
    (h d : Option Json) (rest : List (Option Json))
    (hh : checkResult h = .ok true) :
    (workflowGo tenant provider yaml name (h :: d :: rest)).1.take 3 =
      [⟨"health", none⟩,
       ⟨"action.delete",
         some (Json.obj [("trn", Json.str (expectedTrn tenant provider name))])⟩,
       ⟨"action.register", some (registerParams yaml tenant provider name)⟩] := by
  cases rest with
  | nil =>
    unfold workflowGo
    simp only [popResp, hh]
    cases hc : classifyRegister tenant provider name none <;> simp [hc]
  | cons x xs =>
    unfold workflowGo
    simp only [popResp, hh]
    cases hc : classifyRegister tenant provider name x <;> simp [hc]

/-- Witness for C10 at a concrete healthy first response and an undecodable
delete response. -/
theorem c10_delete_always_before_register_witness :
    checkResult (some (Json.obj [("result", Json.null)])) = .ok true ∧
    (workflowGo "test" "github" "./providers/github/actions/get-user.openapi.yaml"
        "get-user" [some (Json.obj [("result", Json.null)]), none]).1.take 3 =
      [⟨"health", none⟩,
       ⟨"action.delete",
         some (Json.obj [("trn", Json.str (expectedTrn "test" "github" "get-user"))])⟩,
       ⟨"action.register",
         some (registerParams "./providers/github/actions/get-user.openapi.yaml"
           "test" "github" "get-user")⟩] :=
  ⟨rfl, c10_delete_always_before_register "test" "github"
    "./providers/github/actions/get-user.openapi.yaml" "get-user"
    (some (Json.obj [("result", Json.null)])) none [] rfl⟩

/-- C6: on every run of the e2e harness in which the child process was
started, the teardown of the `finally` block runs exactly once — exactly one
`terminate` call, with the forced `kill` exactly when the grace period
elapses — for every oracle of responses (hence for every outcome: normal
completion, assertion failure, or any other raised exception), and the
teardown comes after all RPC traffic.  In `test_stdio_rpc.py` the `finally`
block likewise terminates a started process exactly once and does nothing
when the process was never started. -/
theorem c6_stop_invoked_exactly_once (pending : List (Option Json)) (graceElapsed : Bool) :
    (harnessRun pending graceElapsed).1.countP Event.isTerminate = 1 ∧
    (harnessRun pending graceElapsed).1.countP Event.isKill =
      (if graceElapsed then 1 else 0) ∧
    (harnessRun pending graceElapsed).1 =
      (runWorkflow pending).1.map Event.rpc ++ stopEvents graceElapsed ∧
    (∀ started, (rpcTestTeardown started).countP Event.isTerminate =
      (if started then 1 else 0)) := by
  have h1 : (harnessRun pending graceElapsed).1 =
      (runWorkflow pending).1.map Event.rpc ++ stopEvents graceElapsed := by
    simp [harnessRun]
  refine ⟨?_, ?_, h1, fun started => ?_⟩
  · rw [h1, List.countP_append, countP_map_rpc _ (fun s => rfl)]
    cases graceElapsed <;> rfl
  · rw [h1, List.countP_append, countP_map_rpc _ (fun s => rfl)]
    cases graceElapsed <;> rfl
  · cases started <;> rfl

/-- C7 counterexample: the ambient variable `HOME`, which is on no allow-list,
is present in the environment the e2e harness hands to the child process
(line 31 copies the whole of `os.environ`), refuting the claim that the child
environment contains only the explicit allow-list of variables. -/
theorem c7_ambient_not_filtered_counterexample :
    childEnv ambientHome "HOME" = some "/root" ∧ "HOME" ∉ allowListKeys :=
  ⟨rfl, by decide⟩

/-- C7 as amended: the e2e harness passes the full ambient environment
updated with the three harness variables, so every ambient variable outside
that three-name set is inherited unchanged; the three harness variables
themselves always carry the fixed values of lines 32-38.  Only
`test_stdio_rpc.py` builds the environment from the allow-list alone. -/
theorem c7_childenv_is_ambient_update (ambient : String → Option String)
    (k : String) (hk : k ∉ allowListKeys) :
    childEnv ambient k = ambient k ∧
    childEnv ambient "OPENACT_DATABASE_URL" =
      some "sqlite:/Users/sryu/projects/aionixone/openact/manifest/data/openact.db" ∧
    childEnv ambient "OPENACT_MASTER_KEY" = some "your-32-byte-key-here-for-testing" ∧
    childEnv ambient "RUST_LOG" = some "info" ∧
    (∀ q, q ∉ allowListKeys → rpcTestEnv q = none) := by
  simp only [allowListKeys, List.mem_cons, List.not_mem_nil, or_false, not_or] at hk
  refine ⟨?_, rfl, rfl, rfl, fun q hq => ?_⟩
  · simp [childEnv, envUpdate, hk.1, hk.2.1, hk.2.2]
  · simp only [allowListKeys, List.mem_cons, List.not_mem_nil, or_false, not_or] at hq
    simp [rpcTestEnv, envUpdate, hq.1, hq.2.1, hq.2.2]

/-- Witness for C7's amended statement at the concrete ambient variable
`HOME`. -/
theorem c7_childenv_is_ambient_update_witness :
    "HOME" ∉ allowListKeys ∧ childEnv ambientHome "HOME" = ambientHome "HOME" :=
  ⟨by decide, (c7_childenv_is_ambient_update ambientHome "HOME" (by decide)).1⟩

/-- C9 counterexample: with `OPENACT_CALLBACK_PORT` set to `"9090"`, the
`scripts/` listener binds 9090 but the `authflow/scripts/` listener still
binds its hard-coded 8080 — so it is not the case that every start of the
callback listener takes its port from the environment variable when set. -/
theorem c9_authflow_port_not_configurable_counterexample :
    envWithPort "OPENACT_CALLBACK_PORT" = some "9090" ∧
    scriptsCallbackPort envWithPort = .ok 9090 ∧
    authflowCallbackPort = 8080 ∧ (8080 : Int) ≠ 9090 :=
  ⟨rfl, rfl, rfl, by decide⟩

/-- C9 as amended: the `scripts/` callback listener takes its port from
`OPENACT_CALLBACK_PORT` (parsed with `int`) when that variable is set and
uses 8080 otherwise; the `authflow/scripts/` variant always binds the
constant 8080, regardless of the environment. -/
theorem c9_scripts_port_env_default (env : String → Option String) :
    (env "OPENACT_CALLBACK_PORT" = none → scriptsCallbackPort env = .ok 8080) ∧
    (∀ s, env "OPENACT_CALLBACK_PORT" = some s → scriptsCallbackPort env = pyInt s) ∧
    authflowCallbackPort = 8080 := by
  refine ⟨fun h => ?_, fun s h => ?_, rfl⟩
  · simp only [scriptsCallbackPort, h, Option.getD_none]
    rfl
  · simp only [scriptsCallbackPort, h, Option.getD_some]

/-- Witness for C9's amended statement: the default branch at an empty
environment and the set branch at `envWithPort`. -/
theorem c9_scripts_port_env_default_witness :
    scriptsCallbackPort (fun _ => none) = .ok 8080 ∧
    scriptsCallbackPort envWithPort = pyInt "9090" ∧
    authflowCallbackPort = 8080 :=
  ⟨(c9_scripts_port_env_default (fun _ => none)).1 rfl,
   (c9_scripts_port_env_default envWithPort).2.1 "9090" rfl,
   (c9_scripts_port_env_default envWithPort).2.2⟩

/-- C8 counterexample: a valid Request wire object with its members in a
different order decodes to a well-formed `Request`, but re-encoding that
`Request` produces the canonical layout of `send_rpc_request`
(`jsonrpc` first), not the original object: `encode (decode x) ≠ x`. -/
theorem c8_wire_roundtrip_counterexample :
    decodeRequest reorderedWire = some ⟨"health", 1, none⟩ ∧
    encodeRequest ⟨"health", 1, none⟩ ≠ reorderedWire := by
  refine ⟨rfl, fun h => ?_⟩
  have h2 := congrArg headFieldKey h
  rw [show headFieldKey (encodeRequest ⟨"health", 1, none⟩) = some "jsonrpc" from rfl,
      show headFieldKey reorderedWire = some "method" from rfl] at h2
  exact absurd h2 (by decide)

/-- C8 as amended: the round-trip holds in the other direction — decoding
the wire object `send_rpc_request` emits for any Request reproduces that
Request exactly; `encode (decode x) = x` only holds for wire objects already
in the encoder's canonical layout. -/
theorem c8_decode_encode_roundtrip (r : Request) :
    decodeRequest (encodeRequest r) = some r := by
  cases r with
  | mk m i ps => cases ps <;> rfl

/-- Any response of the `respWithId` shape passes the `r and "result" in r`
success check, whatever integer its `id` member holds. -/
theorem respWithId_success (i : Int) : checkResult (some (respWithId i)) = .ok true := rfl

/-- C5 counterexample: `send_rpc_request` always sends `id = 1` (the default
`request_id`), yet a response carrying `id = 999` is processed as a normal
success: the health step passes and the workflow goes on to send
`action.delete` and `action.register`; no mismatch failure occurs anywhere
(the code performs no comparison of the two ids and defines no
`TransportMismatchError`). -/
theorem c5_mismatched_id_accepted_counterexample :
    defaultRequestId = 1 ∧
    pyIndex (respWithId 999) "id" = .ok (Json.num 999) ∧
    ((999 : Int) ≠ 1) ∧
    (runWorkflow [some (respWithId 999)]).1.take 3 =
      [⟨"health", none⟩,
       ⟨"action.delete",
         some (Json.obj [("trn", Json.str (expectedTrn "test" "github" "get-user"))])⟩,
       ⟨"action.register",
         some (registerParams "./providers/github/actions/get-user.openapi.yaml"
           "test" "github" "get-user")⟩] ∧
    (runWorkflow [some (respWithId 999)]).2 =
      .error "AssertionError: action.register failed" :=
  ⟨rfl, rfl, by decide, rfl, rfl⟩

/-- C5 as amended: the caller never inspects the response `id` — a run whose
first response carries an arbitrary `id` value `i` is indistinguishable from
one whose response echoes the request's `id = 1`. -/
theorem c5_response_id_ignored (i : Int) (tenant provider yaml name : String)
    (rest : List (Option Json)) :
    workflowGo tenant provider yaml name (some (respWithId i) :: rest) =
      workflowGo tenant provider yaml name (some (respWithId 1) :: rest) := by
  unfold workflowGo
  simp only [popResp, respWithId_success]

/-- C4 counterexample: a decoded Response carrying both a `result` and an
`error` member is not rejected — the harness defines no decode-shape check
and no `TransportDecodeError` — it passes the success checks: the health
step accepts it and the workflow proceeds to the delete and register
requests, and the `action.update` assertion likewise accepts it. -/
theorem c4_both_fields_accepted_counterexample :
    checkResult (some bothFieldsResp) = .ok true ∧
    updateAccept (some bothFieldsResp) = .ok true ∧
    (runWorkflow [some bothFieldsResp]).1.take 3 =
      [⟨"health", none⟩,
       ⟨"action.delete",
         some (Json.obj [("trn", Json.str (expectedTrn "test" "github" "get-user"))])⟩,
       ⟨"action.register",
         some (registerParams "./providers/github/actions/get-user.openapi.yaml"
           "test" "github" "get-user")⟩] :=
  ⟨rfl, rfl, rfl⟩

/-- C4 as amended: a response line that is not valid JSON is surfaced as an
absent response (`send_rpc_request` catches the parse failure and returns
`None`) rather than raising a decode error; a step that requires success then
fails its assertion, so the call is never treated as a success — while a
response with both `result` and `error` members satisfies the success check
whenever it has a `result` key. -/
theorem c4_undecodable_line_never_succeeds (tenant provider yaml name : String)
    (rest : List (Option Json)) :
    workflowGo tenant provider yaml name (none :: rest) =
      ([⟨"health", none⟩], .error "AssertionError: health failed") ∧
    checkResult none = .ok false ∧
    (∀ fields, fields.any (fun p => p.1 == "result") = true →
      checkResult (some (Json.obj fields)) = .ok true) := by
  refine ⟨?_, rfl, fun fields hf => ?_⟩
  · unfold workflowGo
    simp [popResp, checkResult]
  · cases fields with
    | nil => simp at hf
    | cons a t => simp [checkResult, Json.truthy, pyIn, hf]

/-- Witness for C4's amended statement at concrete inputs: the empty oracle
entry and a both-members response object. -/
theorem c4_undecodable_line_never_succeeds_witness :
    workflowGo "test" "github" "./providers/github/actions/get-user.openapi.yaml"
        "get-user" [none] =
      ([⟨"health", none⟩], .error "AssertionError: health failed") ∧
    checkResult (some (Json.obj [("result", Json.null), ("error", Json.null)])) = .ok true :=
  ⟨(c4_undecodable_line_never_succeeds "test" "github"
      "./providers/github/actions/get-user.openapi.yaml" "get-user" []).1,
   (c4_undecodable_line_never_succeeds "test" "github"
      "./providers/github/actions/get-user.openapi.yaml" "get-user" []).2.2
     [("result", Json.null), ("error", Json.null)] rfl⟩

/-- C3 counterexample: the decoded response `{}` is present (not `None`) and
carries neither a `result` nor an `error` member, yet the `action.update`
assertion rejects it (an empty dict is falsy in Python), aborting the
workflow — against the claim that any present response lacking `error` is
accepted. -/
theorem c3_empty_object_rejected_counterexample :
    (some (Json.obj []) ≠ (none : Option Json)) ∧
    pyIn "result" (Json.obj []) = .ok false ∧
    pyIn "error" (Json.obj []) = .ok false ∧
    updateAccept (some (Json.obj [])) = .ok false ∧
    (updatePhase "test" "github" "./providers/github/actions/get-user.openapi.yaml"
        (Json.str (expectedTrn "test" "github" "get-user")) [some (Json.obj [])]).2 =
      .error "AssertionError: action.update failed" :=
  ⟨by simp, rfl, rfl, rfl, rfl⟩

/-- C3 as amended: the `action.update` response is accepted exactly when the
decoded response is truthy (present and, for an object, non-empty) and
either has a `result` member or lacks an `error` member; an absent (`None`)
or empty-object response is rejected, and a response with an `error` member
and no `result` member aborts the workflow with the update assertion. -/
theorem c3_update_acceptance (fields : List (String × Json)) (action_trn : Json)
    (tenant provider yaml : String) (rest : List (Option Json)) :
    updateAccept none = .ok false ∧
    updateAccept (some (Json.obj fields)) =
      .ok (!fields.isEmpty &&
        (fields.any (fun p => p.1 == "result") || !fields.any (fun p => p.1 == "error"))) ∧
    (updatePhase tenant provider yaml action_trn
        (some (Json.obj [("error", Json.obj [("code", Json.num 1)])]) :: rest)).2 =
      .error "AssertionError: action.update failed" := by
  refine ⟨rfl, ?_, rfl⟩
  cases fields with
  | nil => rfl
  | cons a t =>
    cases hr : (a :: t).any (fun p => p.1 == "result") <;>
    cases herr : (a :: t).any (fun p => p.1 == "error") <;>
      simp [updateAccept, Json.truthy, pyIn, hr, herr]

/-- C1: for every non-Success `action.register` response, `main` recovers
(binding an `action_trn` and continuing) if and only if the error message
extracted from the response contains one of the three idempotency markers
tested at line 89 (`"UNIQUE constraint failed: actions.trn"`,
`"already exists"`, `"Invalid input"`), and the handle it then uses is
exactly the deterministic composite key
`trn:openact:{tenant}:action/{provider}/{name}@v1`; any other failure raises
`AssertionError`, aborting the workflow. -/
theorem c1_register_conflict_recovery (tenant provider name : String)
    (r : Option Json) (hfail : checkResult r = .ok false) (j : Json) :
    classifyRegister tenant provider name r = .ok j ↔
      ((∃ m, extractErrMsg r = .ok m ∧ msgHasMarker m = .ok true) ∧
       j = Json.str (expectedTrn tenant provider name)) := by
  unfold classifyRegister
  rw [hfail]
  cases hm : extractErrMsg r with
  | error e => simp [hm]
  | ok m =>
    cases hk : msgHasMarker m with
    | error e => simp [hm, hk]
    | ok b => cases b <;> simp [hm, hk, eq_comm]

/-- Witness for C1 at a concrete conflict response: the `already exists`
marker triggers recovery with the synthesized handle. -/
theorem c1_register_conflict_recovery_witness :
    checkResult conflictResp = .ok false ∧
    classifyRegister "test" "github" "get-user" conflictResp =
      .ok (Json.str (expectedTrn "test" "github" "get-user")) :=
  ⟨rfl,
   (c1_register_conflict_recovery "test" "github" "get-user" conflictResp rfl
      (Json.str (expectedTrn "test" "github" "get-user"))).mpr
     ⟨⟨Json.str "actions.trn already exists", rfl, rfl⟩, rfl⟩⟩

/-- Every trace of the binding phase starts with the `binding.create`
request. -/
theorem bindingPhase_trace_head (tenant : String) (action_trn auth_trn : Json)
    (pending : List (Option Json)) :
    ∃ tl, (bindingPhase tenant action_trn auth_trn pending).1 =
      (⟨"binding.create", some (Json.obj [("tenant", Json.str tenant),
        ("action_trn", action_trn), ("auth_trn", auth_trn)])⟩ : Step) :: tl := by
  rcases hp : popResp pending with ⟨r, p1⟩
  cases hc : checkResult r with
  | error e => exact ⟨[], by simp [bindingPhase, hp, hc]⟩
  | ok b =>
    cases b with
    | true => exact ⟨(runTrigger tenant action_trn p1).1, by simp [bindingPhase, hp, hc]⟩
    | false =>
      rcases hp2 : popResp p1 with ⟨rg, p2⟩
      cases hc2 : checkResult rg with
      | error e =>
        exact ⟨[⟨"binding.get", some (Json.obj [("tenant", Json.str tenant),
          ("action_trn", action_trn)])⟩], by simp [bindingPhase, hp, hc, hp2, hc2]⟩
      | ok b2 =>
        cases b2 with
        | false =>
          exact ⟨[⟨"binding.get", some (Json.obj [("tenant", Json.str tenant),
            ("action_trn", action_trn)])⟩], by simp [bindingPhase, hp, hc, hp2, hc2]⟩
        | true =>
          exact ⟨⟨"binding.get", some (Json.obj [("tenant", Json.str tenant),
              ("action_trn", action_trn)])⟩ :: (runTrigger tenant action_trn p2).1,
            by simp [bindingPhase, hp, hc, hp2, hc2]⟩

/-- C2: when `auth.pat` does not return a Success, `main` calls `auth.list`,
keeps exactly the returned connection entries that are strings containing
both the tenant and the provider substring, and uses the first of them as
the auth handle in the subsequent `binding.create`; when no entry matches,
the workflow aborts at the auth step with the trace ending at `auth.list` —
`binding.create` (step 5) is never sent. -/
theorem c2_auth_fallback_filter_first (tenant provider : String) (action_trn : Json)
    (rl patR : Option Json) (res conns : Json) (items : List Json)
    (rest : List (Option Json))
    (h1 : checkResult rl = .ok true) (h2 : resultOf rl = .ok res)
    (h3 : pyGetD res "connections" (Json.arr []) = .ok conns)
    (h4 : pyIter conns = .ok items)
    (h5 : checkResult patR = .ok false) :
    (authFallback tenant provider rl =
      match items.filter (connMatches tenant provider) with
      | [] => Except.error "AssertionError: no existing auth connection found"
      | c :: _ => Except.ok c) ∧
    (items.filter (connMatches tenant provider) = [] →
      authPhase tenant provider action_trn (patR :: rl :: rest) =
        ([⟨"auth.pat", some (patParams tenant provider)⟩, ⟨"auth.list", none⟩],
         Except.error "AssertionError: no existing auth connection found")) ∧
    (∀ c cs, items.filter (connMatches tenant provider) = c :: cs →
      ∃ tl, (authPhase tenant provider action_trn (patR :: rl :: rest)).1 =
        ⟨"auth.pat", some (patParams tenant provider)⟩ :: ⟨"auth.list", none⟩ ::
        (⟨"binding.create", some (Json.obj [("tenant", Json.str tenant),
          ("action_trn", action_trn), ("auth_trn", c)])⟩ : Step) :: tl) := by
  have hfb : authFallback tenant provider rl =
      match items.filter (connMatches tenant provider) with
      | [] => Except.error "AssertionError: no existing auth connection found"
      | c :: _ => Except.ok c := by
    unfold authFallback
    simp only [h1, h2, h3, h4]
  refine ⟨hfb, fun hempty => ?_, fun c cs hcons => ?_⟩
  · unfold authPhase
    simp only [popResp, h5, hfb, hempty]
  · obtain ⟨tl, htl⟩ := bindingPhase_trace_head tenant action_trn c rest
    refine ⟨tl, ?_⟩
    unfold authPhase
    simp only [popResp, h5, hfb, hcons, htl]

/-- Witness for C2 at concrete responses: the filter keeps exactly the one
string containing both `test` and `github`, and the binding step is issued
with it. -/
theorem c2_auth_fallback_filter_first_witness :
    authFallback "test" "github" authListResp =
      .ok (Json.str "trn:openact:test:connection/github/user1") ∧
    (∃ tl, (authPhase "test" "github" (Json.str "a")
        [patFailResp, authListResp]).1 =
      ⟨"auth.pat", some (patParams "test" "github")⟩ :: ⟨"auth.list", none⟩ ::
      (⟨"binding.create", some (Json.obj [("tenant", Json.str "test"),
        ("action_trn", Json.str "a"),
        ("auth_trn", Json.str "trn:openact:test:connection/github/user1")])⟩ : Step) ::
      tl) := by
  have h := c2_auth_fallback_filter_first "test" "github" (Json.str "a")
    authListResp patFailResp (Json.obj [("connections", Json.arr connsList)])
    (Json.arr connsList) connsList [] rfl rfl rfl rfl rfl
  refine ⟨?_, h.2.2 _ _ rfl⟩
  rw [h.1]
  rfl

